import Mathlib

/-!
Verification of the WFP object factories in
`windows/winfw/src/winfw/rostamobjects.cpp` (`MullvadObjects::Provider`,
`ProviderPersistent`, `SublayerBaseline`, `SublayerDns`,
`SublayerPersistent`) against the specification of the provider/sublayer
identity and priority model.

The factories configure `wfp::ProviderBuilder` / `wfp::SublayerBuilder`
instances with fixed names, descriptions, identifiers from `MullvadGuids`,
weights and persistence flags.  The builders and the identifier registry
are declared outside the visible source; they are modelled from the spec
where noted.
-/

/-- Modelled from the spec: the Identity Registry (`MullvadGuids`, declared
in `mullvadguids.h`, not part of the visible source) supplies a stable,
compile-time-fixed identifier constant per logical object, one for each of
the five logical objects used by the factories.  We represent the
identifier space abstractly as an enumeration of those five constants. -/
inductive Guid where
  | providerGuid
  | providerPersistentGuid
  | sublayerBaselineGuid
  | sublayerDnsGuid
  | sublayerPersistentGuid
  deriving DecidableEq, Repr

/-- Identifier of the regular provider (`MullvadGuids::Provider()`). -/
def MullvadGuids.Provider : Guid := Guid.providerGuid

/-- Identifier of the persistent provider (`MullvadGuids::ProviderPersistent()`). -/
def MullvadGuids.ProviderPersistent : Guid := Guid.providerPersistentGuid

/-- Identifier of the baseline sublayer (`MullvadGuids::SublayerBaseline()`). -/
def MullvadGuids.SublayerBaseline : Guid := Guid.sublayerBaselineGuid

/-- Identifier of the DNS sublayer (`MullvadGuids::SublayerDns()`). -/
def MullvadGuids.SublayerDns : Guid := Guid.sublayerDnsGuid

/-- Identifier of the persistent sublayer (`MullvadGuids::SublayerPersistent()`). -/
def MullvadGuids.SublayerPersistent : Guid := Guid.sublayerPersistentGuid

/-- The Windows constant `MAXUINT16`, the maximum representable unsigned
16-bit value, used by the factories as the highest sublayer weight. -/
def MAXUINT16 : Nat := 65535

/-- Provider descriptor value object, per the spec data model:
`{name, description, key, persistent}`. -/
structure wfp.Provider where
  name : String
  description : String
  key : Guid
  persistent : Bool
  deriving DecidableEq, Repr

/-- Sublayer descriptor value object, per the spec data model:
`{name, description, key, ownerProviderKey, weight, persistent}`.
`weight` is an unsigned 16-bit priority, carried here as a `Nat`. -/
structure wfp.Sublayer where
  name : String
  description : String
  key : Guid
  ownerProviderKey : Guid
  weight : Nat
  persistent : Bool
  deriving DecidableEq, Repr

/-- Modelled from the spec: the configuration error raised when `build()`
is invoked with a required field missing.  "Always a defect in the calling
code, never a recoverable runtime condition; must not be silently
defaulted." -/
inductive wfp.BuildError where
  | missingRequiredField
  deriving DecidableEq, Repr

/-- Modelled from the spec: `wfp::ProviderBuilder` (declared outside the
visible source) is a configuration record with recognized options
`{name, description, key (required), persistent}`.  Unset optional fields
start empty; `persistent` is off unless requested. -/
structure wfp.ProviderBuilder where
  name : Option String := none
  description : Option String := none
  key : Option Guid := none
  persistent : Bool := false
  deriving DecidableEq, Repr

/-- Embeds the chained call `.name(...)` on a `wfp::ProviderBuilder`. -/
def wfp.ProviderBuilder.setName (b : wfp.ProviderBuilder) (n : String) : wfp.ProviderBuilder :=
  { b with name := some n }

/-- Embeds the chained call `.description(...)` on a `wfp::ProviderBuilder`. -/
def wfp.ProviderBuilder.setDescription (b : wfp.ProviderBuilder) (d : String) : wfp.ProviderBuilder :=
  { b with description := some d }

/-- Embeds the chained call `.key(...)` on a `wfp::ProviderBuilder`. -/
def wfp.ProviderBuilder.setKey (b : wfp.ProviderBuilder) (k : Guid) : wfp.ProviderBuilder :=
  { b with key := some k }

/-- Embeds the chained call `.persistent()` on a `wfp::ProviderBuilder`. -/
def wfp.ProviderBuilder.setPersistent (b : wfp.ProviderBuilder) : wfp.ProviderBuilder :=
  { b with persistent := true }

/-- Modelled from the spec: `build()` on a Provider Builder produces an
immutable Provider descriptor, and "fails with a configuration-error kind
if `key` was never set". -/
def wfp.ProviderBuilder.build (b : wfp.ProviderBuilder) : Except wfp.BuildError wfp.Provider :=
  match b.key with
  | none => Except.error wfp.BuildError.missingRequiredField
  | some k =>
      Except.ok
        { name := b.name.getD ""
          description := b.description.getD ""
          key := k
          persistent := b.persistent }

/-- Modelled from the spec: `wfp::SublayerBuilder` (declared outside the
visible source) is a configuration record with recognized options
`{name, description, key (required), provider (required), weight (required),
persistent}`. -/
structure wfp.SublayerBuilder where
  name : Option String := none
  description : Option String := none
  key : Option Guid := none
  provider : Option Guid := none
  weight : Option Nat := none
  persistent : Bool := false
  deriving DecidableEq, Repr

/-- Embeds the chained call `.name(...)` on a `wfp::SublayerBuilder`. -/
def wfp.SublayerBuilder.setName (b : wfp.SublayerBuilder) (n : String) : wfp.SublayerBuilder :=
  { b with name := some n }

/-- Embeds the chained call `.description(...)` on a `wfp::SublayerBuilder`. -/
def wfp.SublayerBuilder.setDescription (b : wfp.SublayerBuilder) (d : String) : wfp.SublayerBuilder :=
  { b with description := some d }

/-- Embeds the chained call `.key(...)` on a `wfp::SublayerBuilder`. -/
def wfp.SublayerBuilder.setKey (b : wfp.SublayerBuilder) (k : Guid) : wfp.SublayerBuilder :=
  { b with key := some k }

/-- Embeds the chained call `.provider(...)` on a `wfp::SublayerBuilder`. -/
def wfp.SublayerBuilder.setProvider (b : wfp.SublayerBuilder) (p : Guid) : wfp.SublayerBuilder :=
  { b with provider := some p }

/-- Embeds the chained call `.weight(...)` on a `wfp::SublayerBuilder`.
The argument is an unsigned 16-bit value in the source. -/
def wfp.SublayerBuilder.setWeight (b : wfp.SublayerBuilder) (w : Nat) : wfp.SublayerBuilder :=
  { b with weight := some w }

/-- Embeds the chained call `.persistent()` on a `wfp::SublayerBuilder`. -/
def wfp.SublayerBuilder.setPersistent (b : wfp.SublayerBuilder) : wfp.SublayerBuilder :=
  { b with persistent := true }

/-- Modelled from the spec: `build()` on a Sublayer Builder produces an
immutable Sublayer descriptor, and "fails with the same
configuration-error kind if `key` or `provider` is unset"; required
fields are "`key`, and for sublayers also `provider`/`weight`". -/
def wfp.SublayerBuilder.build (b : wfp.SublayerBuilder) : Except wfp.BuildError wfp.Sublayer :=
  match b.key with
  | none => Except.error wfp.BuildError.missingRequiredField
  | some k =>
      match b.provider with
      | none => Except.error wfp.BuildError.missingRequiredField
      | some p =>
          match b.weight with
          | none => Except.error wfp.BuildError.missingRequiredField
          | some w =>
              Except.ok
                { name := b.name.getD ""
                  description := b.description.getD ""
                  key := k
                  ownerProviderKey := p
                  weight := w
                  persistent := b.persistent }

/-- Embeds `MullvadObjects::Provider()` from `rostamobjects.cpp`: a fresh
`wfp::ProviderBuilder` configured with name "Rostam VPN", the integration
description and `MullvadGuids::Provider()` as its key. -/
def MullvadObjects.Provider (_ : Unit) : wfp.ProviderBuilder :=
  (({} : wfp.ProviderBuilder).setName "Rostam VPN"
    ).setDescription "Rostam VPN firewall integration"
    |>.setKey MullvadGuids.Provider

/-- Embeds `MullvadObjects::SublayerBaseline()` from `rostamobjects.cpp`:
key `MullvadGuids::SublayerBaseline()`, provider `MullvadGuids::Provider()`,
weight `MAXUINT16`. -/
def MullvadObjects.SublayerBaseline (_ : Unit) : wfp.SublayerBuilder :=
  (({} : wfp.SublayerBuilder).setName "Rostam VPN baseline"
    ).setDescription "Filters that enforce a good baseline"
    |>.setKey MullvadGuids.SublayerBaseline
    |>.setProvider MullvadGuids.Provider
    |>.setWeight MAXUINT16

/-- Embeds `MullvadObjects::SublayerDns()` from `rostamobjects.cpp`:
key `MullvadGuids::SublayerDns()`, provider `MullvadGuids::Provider()`,
weight `MAXUINT16 - 1`. -/
def MullvadObjects.SublayerDns (_ : Unit) : wfp.SublayerBuilder :=
  (({} : wfp.SublayerBuilder).setName "Rostam VPN DNS"
    ).setDescription "Filters that restrict DNS traffic"
    |>.setKey MullvadGuids.SublayerDns
    |>.setProvider MullvadGuids.Provider
    |>.setWeight (MAXUINT16 - 1)

/-- Embeds `MullvadObjects::ProviderPersistent()` from `rostamobjects.cpp`:
persistent, key `MullvadGuids::ProviderPersistent()`. -/
def MullvadObjects.ProviderPersistent (_ : Unit) : wfp.ProviderBuilder :=
  (({} : wfp.ProviderBuilder).setName "Rostam VPN persistent"
    ).setDescription "Rostam VPN firewall integration"
    |>.setPersistent
    |>.setKey MullvadGuids.ProviderPersistent

/-- Embeds `MullvadObjects::SublayerPersistent()` from `rostamobjects.cpp`:
key `MullvadGuids::SublayerPersistent()`, provider
`MullvadGuids::ProviderPersistent()`, persistent, weight `MAXUINT16`. -/
def MullvadObjects.SublayerPersistent (_ : Unit) : wfp.SublayerBuilder :=
  (({} : wfp.SublayerBuilder).setName "Rostam VPN persistent"
    ).setDescription "Filters that restrict traffic before WinFw is initialized"
    |>.setKey MullvadGuids.SublayerPersistent
    |>.setProvider MullvadGuids.ProviderPersistent
    |>.setPersistent
    |>.setWeight MAXUINT16

/-- Extracts the descriptor from a successful provider build; the fallback
is irrelevant since each factory build is proved to return `ok`. -/
def wfp.ProviderBuilder.buildOk (b : wfp.ProviderBuilder) : wfp.Provider :=
  match b.build with
  | Except.ok p => p
  | Except.error _ =>
      { name := "", description := "", key := Guid.providerGuid, persistent := false }

/-- Extracts the descriptor from a successful sublayer build; the fallback
is irrelevant since each factory build is proved to return `ok`. -/
def wfp.SublayerBuilder.buildOk (b : wfp.SublayerBuilder) : wfp.Sublayer :=
  match b.build with
  | Except.ok s => s
  | Except.error _ =>
      { name := "", description := "", key := Guid.providerGuid
        ownerProviderKey := Guid.providerGuid, weight := 0, persistent := false }

/-- The regular provider descriptor produced by `MullvadObjects::Provider()`. -/
def regularProvider : wfp.Provider := (MullvadObjects.Provider ()).buildOk

/-- The persistent provider descriptor produced by
`MullvadObjects::ProviderPersistent()`. -/
def persistentProvider : wfp.Provider := (MullvadObjects.ProviderPersistent ()).buildOk

/-- The baseline sublayer descriptor produced by
`MullvadObjects::SublayerBaseline()`. -/
def baselineSublayer : wfp.Sublayer := (MullvadObjects.SublayerBaseline ()).buildOk

/-- The DNS sublayer descriptor produced by `MullvadObjects::SublayerDns()`. -/
def dnsSublayer : wfp.Sublayer := (MullvadObjects.SublayerDns ()).buildOk

/-- The persistent sublayer descriptor produced by
`MullvadObjects::SublayerPersistent()`. -/
def persistentSublayer : wfp.Sublayer := (MullvadObjects.SublayerPersistent ()).buildOk

/-- All provider descriptors produced by the factories. -/
def builtProviders : List wfp.Provider := [regularProvider, persistentProvider]

/-- All sublayer descriptors produced by the factories. -/
def builtSublayers : List wfp.Sublayer := [baselineSublayer, dnsSublayer, persistentSublayer]

/-- C1: every produced sublayer's persistence flag matches that of any
produced provider whose key it references; the persistent sublayer
references the persistent provider, and the baseline and DNS sublayers
reference the non-persistent provider. -/
theorem sublayer_persistence_matches_owner :
    (builtSublayers.all fun s => builtProviders.all fun p =>
      s.ownerProviderKey != p.key || s.persistent == p.persistent) = true
    ∧ persistentSublayer.ownerProviderKey = persistentProvider.key
    ∧ baselineSublayer.ownerProviderKey = regularProvider.key
    ∧ dnsSublayer.ownerProviderKey = regularProvider.key := by
  refine ⟨by decide, rfl, rfl, rfl⟩

/-- C2: every produced sublayer's `ownerProviderKey` equals the key of
exactly one produced provider: baseline and DNS resolve to the regular
provider, the persistent sublayer resolves to the persistent provider,
and the two provider keys differ. -/
theorem sublayer_owner_resolves_uniquely :
    (builtSublayers.all fun s =>
      (builtProviders.countP fun p => p.key == s.ownerProviderKey) == 1) = true
    ∧ baselineSublayer.ownerProviderKey = regularProvider.key
    ∧ dnsSublayer.ownerProviderKey = regularProvider.key
    ∧ persistentSublayer.ownerProviderKey = persistentProvider.key
    ∧ regularProvider.key ≠ persistentProvider.key := by
  refine ⟨by decide, rfl, rfl, rfl, by decide⟩

/-- C3: the baseline sublayer strictly outweighs the DNS sublayer, both
descriptors are non-persistent, and both carry the same owning-provider
identifier. -/
theorem baseline_outweighs_dns :
    dnsSublayer.weight < baselineSublayer.weight
    ∧ baselineSublayer.persistent = false
    ∧ dnsSublayer.persistent = false
    ∧ baselineSublayer.ownerProviderKey = dnsSublayer.ownerProviderKey := by
  refine ⟨by decide, rfl, rfl, rfl⟩

/-- C4: the persistent sublayer's weight equals the maximum representable
unsigned 16-bit value, its owner (the persistent provider) has
`persistent = true`, and the provider referenced by the baseline and DNS
sublayers (the regular provider) has `persistent = false`. -/
theorem persistent_sublayer_max_weight :
    persistentSublayer.weight = 2 ^ 16 - 1
    ∧ persistentSublayer.weight = MAXUINT16
    ∧ persistentSublayer.ownerProviderKey = persistentProvider.key
    ∧ persistentProvider.persistent = true
    ∧ baselineSublayer.ownerProviderKey = regularProvider.key
    ∧ dnsSublayer.ownerProviderKey = regularProvider.key
    ∧ regularProvider.persistent = false := by
  refine ⟨by decide, rfl, rfl, rfl, rfl, rfl, rfl⟩

/-- C5: the regular provider builds to a descriptor with `persistent =
false` and the regular provider key; the baseline sublayer builds to
weight exactly 65535, non-persistent, owned by that key; the DNS sublayer
builds to weight exactly 65534, which is `MAXUINT16 - 1` computed exactly
with no wraparound, and is non-persistent. -/
theorem scenario_regular_namespace :
    regularProvider.persistent = false
    ∧ regularProvider.key = MullvadGuids.Provider
    ∧ regularProvider.name = "Rostam VPN"
    ∧ baselineSublayer.weight = 65535
    ∧ baselineSublayer.persistent = false
    ∧ baselineSublayer.ownerProviderKey = MullvadGuids.Provider
    ∧ dnsSublayer.weight = 65534
    ∧ MAXUINT16 - 1 = 65534
    ∧ dnsSublayer.weight = MAXUINT16 - 1
    ∧ dnsSublayer.persistent = false := by
  refine ⟨rfl, rfl, rfl, rfl, rfl, rfl, rfl, rfl, rfl, rfl⟩

/-- C6: weight is strict among siblings: any two produced sublayers with
the same `ownerProviderKey` and equal weights are the same descriptor;
the persistent and baseline sublayers tie in weight but have different
owning providers, so no two siblings tie. -/
theorem sibling_weights_distinct :
    (builtSublayers.all fun s => builtSublayers.all fun t =>
      (s == t) || s.ownerProviderKey != t.ownerProviderKey || s.weight != t.weight) = true
    ∧ persistentSublayer.weight = baselineSublayer.weight
    ∧ persistentSublayer.ownerProviderKey ≠ baselineSublayer.ownerProviderKey := by
  refine ⟨by decide, rfl, by decide⟩

/-- C7: every provider and sublayer descriptor produced by the five
factories has a non-empty name, a non-empty description, and a set key:
each factory's `build()` succeeds, which requires the key to have been
set, and yields the corresponding descriptor. -/
theorem descriptors_well_formed :
    (builtProviders.all fun p => p.name != "" && p.description != "") = true
    ∧ (builtSublayers.all fun s => s.name != "" && s.description != "") = true
    ∧ (MullvadObjects.Provider ()).build = Except.ok regularProvider
    ∧ (MullvadObjects.ProviderPersistent ()).build = Except.ok persistentProvider
    ∧ (MullvadObjects.SublayerBaseline ()).build = Except.ok baselineSublayer
    ∧ (MullvadObjects.SublayerDns ()).build = Except.ok dnsSublayer
    ∧ (MullvadObjects.SublayerPersistent ()).build = Except.ok persistentSublayer := by
  refine ⟨by decide, by decide, rfl, rfl, rfl, rfl, rfl⟩

/-- C8: every factory is deterministic: any two invocations configure
field-for-field identical builders and build field-for-field identical
descriptors, identifiers included, since each identifier is a fixed
constant independent of when it is requested. -/
theorem factories_deterministic :
    ∀ u v : Unit,
      MullvadObjects.Provider u = MullvadObjects.Provider v
      ∧ MullvadObjects.ProviderPersistent u = MullvadObjects.ProviderPersistent v
      ∧ MullvadObjects.SublayerBaseline u = MullvadObjects.SublayerBaseline v
      ∧ MullvadObjects.SublayerDns u = MullvadObjects.SublayerDns v
      ∧ MullvadObjects.SublayerPersistent u = MullvadObjects.SublayerPersistent v
      ∧ (MullvadObjects.Provider u).build = (MullvadObjects.Provider v).build
      ∧ (MullvadObjects.ProviderPersistent u).build = (MullvadObjects.ProviderPersistent v).build
      ∧ (MullvadObjects.SublayerBaseline u).build = (MullvadObjects.SublayerBaseline v).build
      ∧ (MullvadObjects.SublayerDns u).build = (MullvadObjects.SublayerDns v).build
      ∧ (MullvadObjects.SublayerPersistent u).build = (MullvadObjects.SublayerPersistent v).build := by
  intro u v
  exact ⟨rfl, rfl, rfl, rfl, rfl, rfl, rfl, rfl, rfl, rfl⟩

/-- C9: `build()` on a Provider Builder whose key was never set raises the
configuration error instead of producing a descriptor, and `build()` on a
Sublayer Builder missing its key, its provider or its weight raises the
same configuration-error kind; no missing required field is silently
defaulted. -/
theorem build_missing_required_field_errors :
    (∀ b : wfp.ProviderBuilder, b.key = none →
      b.build = Except.error wfp.BuildError.missingRequiredField)
    ∧ (∀ b : wfp.SublayerBuilder, b.key = none ∨ b.provider = none ∨ b.weight = none →
      b.build = Except.error wfp.BuildError.missingRequiredField) := by
  constructor
  · intro b h
    simp [wfp.ProviderBuilder.build, h]
  · intro b h
    rcases h with h | h | h
    · simp [wfp.SublayerBuilder.build, h]
    · cases hk : b.key <;> simp [wfp.SublayerBuilder.build, hk, h]
    · cases hk : b.key <;> cases hp : b.provider <;>
        simp [wfp.SublayerBuilder.build, hk, hp, h]

/-- Closed witness for C9: the default (fully unset) builders hit the
configuration error. -/
theorem build_missing_required_field_errors_witness :
    ({} : wfp.ProviderBuilder).build = Except.error wfp.BuildError.missingRequiredField
    ∧ ({} : wfp.SublayerBuilder).build = Except.error wfp.BuildError.missingRequiredField :=
  ⟨build_missing_required_field_errors.1 {} rfl,
   build_missing_required_field_errors.2 {} (Or.inl rfl)⟩

/-- C10: the five identifiers used by the factories are pairwise distinct,
so no two of the five produced descriptors share a key, even though the
persistent provider and persistent sublayer share the display name
"Rostam VPN persistent". -/
theorem factory_keys_pairwise_distinct :
    List.Nodup
      [regularProvider.key, persistentProvider.key, baselineSublayer.key,
        dnsSublayer.key, persistentSublayer.key]
    ∧ persistentProvider.name = persistentSublayer.name := by
  refine ⟨by decide, rfl⟩
